import Mathlib

/-!
Verification of the csv-chatbot backend (FastAPI + pandas + SQLAlchemy).

The development shallowly embeds the relevant parts of the three source
modules:
  * `backend/main.py`  — `serialize_dataframe`, `deserialize_dataframe`,
    the `/upload`, `/query`, `/session/{id}/messages` and
    `DELETE /session/{id}` endpoints;
  * `backend/agent.py` — the dataframe tool set (`calculate_mean`,
    `calculate_median`, `sum_column`, `filter_and_aggregate`,
    `group_by_and_aggregate`) and the keyword fallback of `process_query`;
  * `backend/database.py` — the `ChatSession`/`ChatMessage` schema with its
    cascade-delete relationship.

Python/pandas primitives used by the source are modelled explicitly:
strings are Lean `String`s, float cells are an inductive with exact
fractions plus `inf`, `-inf`, `nan`, the database is an explicit record of
session and message rows, and pickle/gzip are concrete lossless codecs.
-/

/-! ## Python string helpers

Executable models of the Python string operations the source relies on:
`str.lower()`, `str.capitalize()`, the substring test `a in b`,
`str.endswith`, and `", ".join` / `"\n".join`. -/

/-- Model of Python `str.lower()` (ASCII case folding, as used on
column names and queries in `agent.py`). -/
def pyLower (s : String) : String := String.mk (s.data.map Char.toLower)

/-- Model of Python `str.capitalize()`: first character upper-cased,
rest lower-cased (used for the `{aggregation.capitalize()}` messages). -/
def pyCapitalize (s : String) : String :=
  match s.data with
  | [] => ""
  | c :: rest => String.mk (Char.toUpper c :: rest.map Char.toLower)

/-- Boolean test that the first character list is an initial segment of
the second. -/
def charPre : List Char → List Char → Bool
  | [], _ => true
  | _ :: _, [] => false
  | a :: as, b :: bs => a == b && charPre as bs

/-- Boolean substring test on character lists: does `nee` occur
contiguously inside `hay`? -/
def charSub : List Char → List Char → Bool
  | [], nee => nee.isEmpty
  | h :: t, nee => charPre nee (h :: t) || charSub t nee

/-- Model of the Python membership test `needle in hay` on strings. -/
def pyIn (needle hay : String) : Bool := charSub hay.data needle.data

/-- Model of Python `str.endswith(suffix)`. -/
def endsWithStr (s suffix : String) : Bool :=
  charPre suffix.data.reverse s.data.reverse

/-- Model of Python `", ".join(items)`. -/
def joinComma : List String → String
  | [] => ""
  | [x] => x
  | x :: y :: xs => x ++ ", " ++ joinComma (y :: xs)

/-- Model of Python `"\n".join(items)`. -/
def joinNl : List String → String
  | [] => ""
  | [x] => x
  | x :: y :: xs => x ++ "\n" ++ joinNl (y :: xs)

/-- The single-quote character, used by Python `str(KeyError(k))` which
renders as the key wrapped in single quotes. -/
def sglQuote : String := String.mk [Char.ofNat 39]

/-- Model of `str(e)` for the `KeyError` raised by `df[column]` on a
missing column: Python renders it as the column name in single quotes. -/
def keyErrStr (c : String) : String := sglQuote ++ c ++ sglQuote

/-- Model of Python truthiness for an optional string argument
(`if filter_column and filter_value:` in `sum_column`): `None` and the
empty string are falsy. -/
def pyTruthy : Option String → Bool
  | none => false
  | some s => !s.isEmpty

/-! ## Cell values and dataframes

A pandas cell is a string or a float; floats are modelled as exact
fractions plus the three IEEE non-finite shapes the source's
`pd.notna` check distinguishes.  Fractions are a dedicated structure
(numerator, positive denominator, reduced on construction) so that all
cell arithmetic reduces inside the kernel. -/

/-- Euclid's algorithm with an explicit fuel argument (the fuel `a + 1`
always suffices because the first argument strictly decreases). -/
def gcdFuel : Nat → Nat → Nat → Nat
  | 0, _, b => b
  | f + 1, a, b => if a = 0 then b else gcdFuel f (b % a) a

/-- Greatest common divisor, kernel-reducible. -/
def natGcd (a b : Nat) : Nat := gcdFuel (a + 1) a b

/-- An exact fraction: the value of a finite Python float. -/
structure Frac where
  num : Int
  den : Nat
deriving DecidableEq, BEq

/-- Build the reduced fraction `n / d`. -/
def mkFrac (n : Int) (d : Nat) : Frac :=
  if d = 0 then ⟨0, 0⟩
  else
    let g := natGcd n.natAbs d
    ⟨Int.ediv n g, d / g⟩

/-- The fraction `n / 1`. -/
def iF (n : Int) : Frac := ⟨n, 1⟩

/-- Exact addition of fractions. -/
def fracAdd (a b : Frac) : Frac :=
  mkFrac (a.num * b.den + b.num * a.den) (a.den * b.den)

/-- Exact division of a fraction by a positive integer count. -/
def fracDivNat (a : Frac) (n : Nat) : Frac := mkFrac a.num (a.den * n)

/-- Comparison of fractions by cross-multiplication. -/
def fracLe (a b : Frac) : Bool := decide (a.num * b.den ≤ b.num * a.den)

/-- A pandas cell value: a string, a finite number, `inf`, `-inf`, or
`nan` (which also stands for pandas NA). -/
inductive PValue where
  | str (s : String)
  | num (q : Frac)
  | inf
  | ninf
  | nan
deriving DecidableEq, BEq

/-- Model of `pd.notna`: everything except `nan` is considered present
(note that `pd.notna(inf)` is `True` in pandas). -/
def pNotna : PValue → Bool
  | .nan => false
  | _ => true

/-- Is the cell a Python string? -/
def isStrB : PValue → Bool
  | .str _ => true
  | _ => false

/-- The in-memory dataframe: ordered column names, per-column dtype
labels (as produced by `str(dtype)`), and the rows of cells. -/
structure DataFrame where
  cols : List String
  dtypes : List String
  rows : List (List PValue)
deriving DecidableEq

/-! ## Serialization (`backend/main.py` lines 60–71)

`serialize_dataframe` pickles the dataframe and gzips the pickle;
`deserialize_dataframe` inverts both steps.  The two external codecs are
modelled as concrete lossless byte codecs: pickle as a length-prefixed
token encoding of the `DataFrame` structure, gzip as a length-framed
container.  Byte strings are `List Nat`. -/

/-- Prefix encoder for strings: length followed by the character codes. -/
def encStr (s : String) : List Nat := s.data.length :: s.data.map Char.toNat

/-- Prefix decoder for strings; returns the decoded value and the
remaining input. -/
def decStr : List Nat → Option (String × List Nat)
  | [] => none
  | n :: rest =>
    if n ≤ rest.length then
      some (String.mk ((rest.take n).map Char.ofNat), rest.drop n)
    else none

/-- Zig-zag prefix encoder for integers. -/
def encInt (i : Int) : List Nat :=
  [if 0 ≤ i then 2 * i.toNat else 2 * (-i).toNat - 1]

/-- Prefix decoder for zig-zag encoded integers. -/
def decInt : List Nat → Option (Int × List Nat)
  | [] => none
  | n :: rest =>
    some ((if n % 2 = 0 then ((n / 2 : Nat) : Int) else -((n + 1) / 2 : Nat)), rest)

/-- Prefix encoder for fractions: numerator then denominator. -/
def encFrac (q : Frac) : List Nat := encInt q.num ++ [q.den]

/-- Prefix decoder for fractions. -/
def decFrac (l : List Nat) : Option (Frac × List Nat) :=
  match decInt l with
  | none => none
  | some (n, rest) =>
    match rest with
    | [] => none
    | d :: rest' => some (⟨n, d⟩, rest')

/-- Prefix encoder for cell values: a constructor tag then the payload. -/
def encPValue : PValue → List Nat
  | .str s => 0 :: encStr s
  | .num q => 1 :: encFrac q
  | .inf => [2]
  | .ninf => [3]
  | .nan => [4]

/-- Prefix decoder for cell values. -/
def decPValue : List Nat → Option (PValue × List Nat)
  | 0 :: rest => (decStr rest).map (fun p => (.str p.1, p.2))
  | 1 :: rest => (decFrac rest).map (fun p => (.num p.1, p.2))
  | 2 :: rest => some (.inf, rest)
  | 3 :: rest => some (.ninf, rest)
  | 4 :: rest => some (.nan, rest)
  | _ => none

/-- Concatenation of the encodings of the elements of a list. -/
def encBody (enc : α → List Nat) : List α → List Nat
  | [] => []
  | x :: xs => enc x ++ encBody enc xs

/-- Length-prefixed list encoder. -/
def encListW (enc : α → List Nat) (xs : List α) : List Nat :=
  xs.length :: encBody enc xs

/-- Decode exactly `n` consecutive values with `dec`. -/
def decListWN (dec : List Nat → Option (α × List Nat)) :
    Nat → List Nat → Option (List α × List Nat)
  | 0, l => some ([], l)
  | n + 1, l =>
    (dec l).bind fun p =>
      (decListWN dec n p.2).bind fun q => some (p.1 :: q.1, q.2)

/-- Length-prefixed list decoder. -/
def decListW (dec : List Nat → Option (α × List Nat)) :
    List Nat → Option (List α × List Nat)
  | [] => none
  | n :: rest => decListWN dec n rest

/-- Model of `pickle.dumps` on a dataframe: encode columns, dtypes and
rows in order. -/
def pickleDumps (df : DataFrame) : List Nat :=
  encListW encStr df.cols ++ encListW encStr df.dtypes ++
    encListW (encListW encPValue) df.rows

/-- Model of `pickle.loads` on a dataframe pickle; fails (`None`) on
malformed input. -/
def pickleLoads (b : List Nat) : Option DataFrame :=
  (decListW decStr b).bind fun p1 =>
    (decListW decStr p1.2).bind fun p2 =>
      (decListW (decListW decPValue) p2.2).bind fun p3 =>
        if p3.2.isEmpty then some ⟨p1.1, p2.1, p3.1⟩ else none

/-- Model of `gzip.compress`: a lossless framing of the payload. -/
def gzipCompress (b : List Nat) : List Nat := b.length :: b

/-- Model of `gzip.decompress`; fails on a malformed frame. -/
def gzipDecompress : List Nat → Option (List Nat)
  | [] => none
  | n :: rest => if rest.length = n then some rest else none

/-- Embedding of `serialize_dataframe` (`main.py` lines 60–65):
`gzip.compress(pickle.dumps(df))`. -/
def serialize_dataframe (df : DataFrame) : List Nat :=
  gzipCompress (pickleDumps df)

/-- Embedding of `deserialize_dataframe` (`main.py` lines 67–71):
`pickle.loads(gzip.decompress(data))`; `none` models the exception on
corrupt input. -/
def deserialize_dataframe (data : List Nat) : Option DataFrame :=
  match gzipDecompress data with
  | none => none
  | some b => pickleLoads b

/-! ## Pandas column access and aggregation

Executable models of the pandas operations the tools use: column lookup
(`df[col]`, raising `KeyError` on a missing name), `select_dtypes`,
skip-NA aggregation (`sum`, `mean`, `count`, `max`, `min`, `median`),
boolean-mask filtering (`df[df[c] == v]`), and `groupby`. -/

/-- Index of the first occurrence of a column name, or `none`. -/
def idxOfStr (c : String) : List String → Option Nat
  | [] => none
  | x :: xs => if x == c then some 0 else (idxOfStr c xs).map (· + 1)

/-- Model of `df[c]`: the column's cells, or `none` when the name is
absent (pandas raises `KeyError`).  Ragged rows read as `nan`. -/
def getCol (df : DataFrame) (c : String) : Option (List PValue) :=
  (idxOfStr c df.cols).map fun i => df.rows.map (fun r => r.getD i PValue.nan)

/-- Is the dtype label numeric?  Models
`select_dtypes(include=['number'])` for the dtypes that CSV parsing
produces. -/
def isNumericDtype (d : String) : Bool := d == "int64" || d == "float64"

/-- Model of `df.select_dtypes(include=['number']).columns`. -/
def numericCols (df : DataFrame) : List String :=
  (df.cols.zip df.dtypes).filterMap fun p =>
    if isNumericDtype p.2 then some p.1 else none

/-- IEEE-style addition on cell values, as used by pandas `sum`
(string cells never reach it — they are guarded out). -/
def pAdd : PValue → PValue → PValue
  | .nan, _ => .nan
  | _, .nan => .nan
  | .str s, _ => .str s
  | _, .str s => .str s
  | .inf, .ninf => .nan
  | .ninf, .inf => .nan
  | .inf, _ => .inf
  | _, .inf => .inf
  | .ninf, _ => .ninf
  | _, .ninf => .ninf
  | .num a, .num b => .num (fracAdd a b)

/-- Division of a cell value by a positive integer count, for `mean`. -/
def pDivNat : PValue → Nat → PValue
  | .num q, n => .num (fracDivNat q n)
  | .inf, _ => .inf
  | .ninf, _ => .ninf
  | .nan, _ => .nan
  | .str s, _ => .str s

/-- Numeric order on non-NA cell values (`-inf < finite < inf`),
for `max`/`min`/`median`; string and `nan` cases are unreachable
because callers guard them out. -/
def pvNumLe : PValue → PValue → Bool
  | .ninf, _ => true
  | _, .ninf => false
  | .num x, .num y => fracLe x y
  | .num _, .inf => true
  | .inf, .num _ => false
  | _, _ => true

/-- Model of pandas `Series.sum` (skipna, `min_count=0`): `none` models
the failure on string data, the empty sum is `0`. -/
def seriesSum (vs : List PValue) : Option PValue :=
  if vs.any isStrB then none
  else some ((vs.filter pNotna).foldl pAdd (.num (iF 0)))

/-- Model of pandas `Series.mean` (skipna): `nan` on an empty series. -/
def seriesMean (vs : List PValue) : Option PValue :=
  if vs.any isStrB then none
  else
    let nn := vs.filter pNotna
    if nn.isEmpty then some .nan
    else some (pDivNat (nn.foldl pAdd (.num (iF 0))) nn.length)

/-- Model of pandas `Series.count`: the number of non-NA cells. -/
def seriesCount (vs : List PValue) : Option PValue :=
  some (.num (iF (vs.filter pNotna).length))

/-- Model of pandas `Series.max` (skipna): `nan` on an empty series. -/
def seriesMax (vs : List PValue) : Option PValue :=
  if vs.any isStrB then none
  else
    match vs.filter pNotna with
    | [] => some .nan
    | h :: t => some (t.foldl (fun a b => if pvNumLe a b then b else a) h)

/-- Model of pandas `Series.min` (skipna): `nan` on an empty series. -/
def seriesMin (vs : List PValue) : Option PValue :=
  if vs.any isStrB then none
  else
    match vs.filter pNotna with
    | [] => some .nan
    | h :: t => some (t.foldl (fun a b => if pvNumLe a b then a else b) h)

/-- Insert into a list sorted by `le`. -/
def insertSorted (le : α → α → Bool) (x : α) : List α → List α
  | [] => [x]
  | y :: ys => if le x y then x :: y :: ys else y :: insertSorted le x ys

/-- Insertion sort by a boolean comparison. -/
def sortByB (le : α → α → Bool) (l : List α) : List α :=
  l.foldr (insertSorted le) []

/-- Model of pandas `Series.median` (skipna): sort the non-NA values and
take the middle element, or the mean of the two middle elements. -/
def seriesMedian (vs : List PValue) : Option PValue :=
  if vs.any isStrB then none
  else
    let nn := sortByB pvNumLe (vs.filter pNotna)
    if nn.isEmpty then some .nan
    else if nn.length % 2 = 1 then some (nn.getD (nn.length / 2) .nan)
    else some (pDivNat (pAdd (nn.getD (nn.length / 2 - 1) .nan)
      (nn.getD (nn.length / 2) .nan)) 2)

/-- Model of the pandas equality comparison `df[c] == value` where
`value` is the string the tool receives: only string cells can compare
equal to it. -/
def pvEqStr (v : PValue) (value : String) : Bool :=
  match v with
  | .str s => s == value
  | _ => false

/-- Keep the entries of `vs` at the positions where `mask` is true
(model of boolean-mask row selection). -/
def maskFilter (vs : List PValue) (mask : List Bool) : List PValue :=
  (vs.zip mask).filterMap fun p => if p.2 then some p.1 else none

/-- Lexicographic order on character lists (model of Python `<=` on
strings, used only to present group keys deterministically). -/
def charsLe : List Char → List Char → Bool
  | [], _ => true
  | _ :: _, [] => false
  | a :: as, b :: bs => if a == b then charsLe as bs else decide (a < b)

/-- Sort-key rank of a cell value's shape. -/
def pvRank : PValue → Nat
  | .ninf => 0
  | .num _ => 1
  | .inf => 2
  | .str _ => 3
  | .nan => 4

/-- Total comparison on cell values used to present `groupby` keys in
sorted order (pandas sorts group keys; mixed-shape keys do not occur in
a single pandas column). -/
def pvKeyLe (a b : PValue) : Bool :=
  match a, b with
  | .num x, .num y => fracLe x y
  | .str s, .str t => charsLe s.data t.data
  | x, y => pvRank x ≤ pvRank y

/-- First-occurrence deduplication of group keys. -/
def dedupPV (l : List PValue) : List PValue :=
  l.foldl (fun acc k => if acc.contains k then acc else acc ++ [k]) []

/-- Model of the distinct group keys of `df.groupby(c)`: non-NA keys,
deduplicated and sorted (pandas `groupby` drops NA keys and sorts). -/
def groupKeys (keys : List PValue) : List PValue :=
  sortByB pvKeyLe (dedupPV (keys.filter pNotna))

/-- The aggregate-column values of the rows whose group key equals `k`. -/
def valsFor (k : PValue) (pairs : List (PValue × PValue)) : List PValue :=
  pairs.filterMap fun p => if p.1 == k then some p.2 else none

/-- Dispatch of `getattr(series, aggregation)()` for the five supported
aggregation names. -/
def aggApply (aggregation : String) (vs : List PValue) : Option PValue :=
  if aggregation == "sum" then seriesSum vs
  else if aggregation == "mean" then seriesMean vs
  else if aggregation == "count" then seriesCount vs
  else if aggregation == "max" then seriesMax vs
  else if aggregation == "min" then seriesMin vs
  else none

/-- Model of `df.groupby(gcol)[acol].<aggregation>()` given the zipped
(group key, aggregate value) column pairs: one aggregate per distinct
key. -/
def aggAll (aggregation : String) (pairs : List (PValue × PValue)) :
    Option (List (PValue × PValue)) :=
  (groupKeys (pairs.map Prod.fst)).mapM fun k =>
    (aggApply aggregation (valsFor k pairs)).map fun v => (k, v)

/-- Rendering of a cell value as Python `str()` of the group key.
String keys render as themselves (the only shape the verified claims
exercise); the numeric renderings are nominal. -/
def pvToStr : PValue → String
  | .str s => s
  | .num q => toString q.num
  | .inf => "inf"
  | .ninf => "-inf"
  | .nan => "nan"

/-- Model of Python's `:.2f` formatting on a finite value: round to two
decimal places and render with exactly two digits after the point
(`q * 100 + 1/2` floored is `(200 * num + den) / (2 * den)` floored). -/
def fmt2 (q : Frac) : String :=
  let n : Int := Int.fdiv (q.num * 200 + q.den) (2 * q.den)
  let sign := if n < 0 then "-" else ""
  let m := n.natAbs
  sign ++ toString (m / 100) ++ "." ++
    (if m % 100 < 10 then "0" else "") ++ toString (m % 100)

/-- Model of `f"{v:.2f}"` on a cell value (`inf`, `-inf` and `nan`
format as their names in Python). -/
def fmtPV : PValue → String
  | .num q => fmt2 q
  | .inf => "inf"
  | .ninf => "-inf"
  | .nan => "nan"
  | .str s => s

/-- The aggregation names accepted by the aggregate tools. -/
def validAggs : List String := ["sum", "mean", "count", "max", "min"]

/-! ## The dataframe tool set (`backend/agent.py`)

Each tool returns the success/error result envelope of the source.  The
envelope's `status` field is implied by the constructor; `result` and
`message` (resp. `error_message`) are the constructor's fields. -/

/-- Result envelope of the scalar aggregation tools
(`calculate_mean`, `calculate_median`, `sum_column`,
`filter_and_aggregate`). -/
inductive AggResult where
  | success (result : PValue) (message : String)
  | error (error_message : String)
deriving DecidableEq

/-- Embedding of `calculate_mean` (`agent.py` lines 33–53):
`float(df[column].mean())` wrapped in try/except.  A missing column
raises `KeyError`, caught and rendered via `str(e)`; non-numeric data
raises inside `mean()`, also caught. -/
def calculate_mean (df : DataFrame) (column : String) : AggResult :=
  match getCol df column with
  | none => .error ("Error calculating mean: " ++ keyErrStr column)
  | some vs =>
    match seriesMean vs with
    | none => .error "Error calculating mean: unsupported operand type"
    | some m => .success m ("Mean of " ++ column ++ ": " ++ fmtPV m)

/-- Embedding of `calculate_median` (`agent.py` lines 55–75). -/
def calculate_median (df : DataFrame) (column : String) : AggResult :=
  match getCol df column with
  | none => .error ("Error calculating median: " ++ keyErrStr column)
  | some vs =>
    match seriesMedian vs with
    | none => .error "Error calculating median: unsupported operand type"
    | some m => .success m ("Median of " ++ column ++ ": " ++ fmtPV m)

/-- Embedding of `sum_column` (`agent.py` lines 77–106): the filter is
applied only when BOTH optional arguments are truthy
(`if filter_column and filter_value:`); otherwise the whole column is
summed. -/
def sum_column (df : DataFrame) (column : String)
    (filter_column filter_value : Option String) : AggResult :=
  if pyTruthy filter_column && pyTruthy filter_value then
    match getCol df (filter_column.getD "") with
    | none => .error ("Error calculating sum: " ++ keyErrStr (filter_column.getD ""))
    | some fvs =>
      let mask := fvs.map (fun v => pvEqStr v (filter_value.getD ""))
      match (getCol df column).map (fun vs => maskFilter vs mask) with
      | none => .error ("Error calculating sum: " ++ keyErrStr column)
      | some vs =>
        match seriesSum vs with
        | none => .error "Error calculating sum: unsupported operand type"
        | some s =>
          .success s ("Sum of " ++ column ++ " where " ++ filter_column.getD ""
            ++ " = " ++ filter_value.getD "" ++ ": " ++ fmtPV s)
  else
    match getCol df column with
    | none => .error ("Error calculating sum: " ++ keyErrStr column)
    | some vs =>
      match seriesSum vs with
      | none => .error "Error calculating sum: unsupported operand type"
      | some s => .success s ("Sum of " ++ column ++ ": " ++ fmtPV s)

/-- Embedding of `filter_and_aggregate` (`agent.py` lines 270–307):
equality-filter on one column, then aggregate another; errors, in source
order, on a missing filter column, an empty filter result, an invalid
aggregation name, a missing aggregate column, and non-numeric data. -/
def filter_and_aggregate (df : DataFrame)
    (filter_column filter_value aggregate_column aggregation : String) : AggResult :=
  match getCol df filter_column with
  | none => .error ("Error in filter and aggregate: " ++ keyErrStr filter_column)
  | some fvs =>
    let mask := fvs.map (fun v => pvEqStr v filter_value)
    if mask.count true = 0 then
      .error ("No records found where " ++ filter_column ++ " = " ++ filter_value)
    else if !(validAggs.contains aggregation) then
      .error "Invalid aggregation type. Must be one of: sum, mean, count, max, min"
    else
      match (getCol df aggregate_column).map (fun vs => maskFilter vs mask) with
      | none => .error ("Error in filter and aggregate: " ++ keyErrStr aggregate_column)
      | some vs =>
        match aggApply aggregation vs with
        | none => .error "Error in filter and aggregate: unsupported operand type"
        | some v =>
          .success v (pyCapitalize aggregation ++ " of " ++ aggregate_column
            ++ " where " ++ filter_column ++ " = " ++ filter_value ++ ": " ++ fmtPV v)

/-- Result envelope of `group_by_and_aggregate`: `result` models
`aggregated.to_dict()` (raw group key to aggregate), `grouped_data` the
list of records with `str(group_value)` keys and NA normalized to 0. -/
inductive GroupResult where
  | success (result : List (PValue × PValue)) (message : String)
      (grouped_data : List (String × PValue)) (summary : String)
  | error (error_message : String)
deriving DecidableEq

/-- The missing-column error message of `group_by_and_aggregate`
(`agent.py` lines 222–231): names the missing column and lists the
available columns. -/
def colNotFoundMsg (c : String) (cols : List String) : String :=
  "Column " ++ sglQuote ++ c ++ sglQuote ++ " not found. Available columns: "
    ++ joinComma cols

/-- Embedding of the column-resolution loop of `group_by_and_aggregate`
(`agent.py` lines 215–219): scan all columns, keeping the LAST one whose
lower-cased name equals the lower-cased request. -/
def resolveColumn (req : String) (cols : List String) : Option String :=
  cols.foldl (fun acc c => if pyLower c == pyLower req then some c else acc) none

/-- Embedding of `group_by_and_aggregate` (`agent.py` lines 198–268):
case-insensitive resolution of both column names, aggregation-name
validation, then group-and-aggregate.  In `grouped_data` an aggregate
failing `pd.notna` is replaced by `0` (line 249). -/
def group_by_and_aggregate (df : DataFrame)
    (group_column aggregate_column aggregation : String) : GroupResult :=
  match resolveColumn group_column df.cols with
  | none => .error (colNotFoundMsg group_column df.cols)
  | some gcol =>
    match resolveColumn aggregate_column df.cols with
    | none => .error (colNotFoundMsg aggregate_column df.cols)
    | some acol =>
      if !(validAggs.contains aggregation) then
        .error "Invalid aggregation type. Must be one of: sum, mean, count, max, min"
      else
        match getCol df gcol, getCol df acol with
        | some gvs, some avs =>
          match aggAll aggregation (gvs.zip avs) with
          | none => .error "Error in group by and aggregate: unsupported operand type"
          | some raw =>
            .success raw
              (pyCapitalize aggregation ++ " of " ++ acol ++ " grouped by " ++ gcol)
              (raw.map fun kv =>
                (pvToStr kv.1, if pNotna kv.2 then kv.2 else PValue.num (iF 0)))
              ("Found " ++ toString raw.length ++ " groups")
        | _, _ => .error "Error in group by and aggregate: column access failed"

/-! ## The keyword fallback of `process_query` (`agent.py` lines 576–603)

When the agent runtime raises, `process_query` falls back to keyword
heuristics over the dataframe.  The embedding reproduces the branch
structure exactly: a `mean`/`average` branch, a fall-through
`sum`/`total` branch (whose column selection ALSO fires on the literal
keywords `sales` and `revenue`), a `column(s)` branch, and a generic
error message carrying `str(e)`. -/

/-- The column's cells, totalised (used only on columns known to be
present). -/
def colSeries (df : DataFrame) (c : String) : List PValue :=
  (getCol df c).getD []

/-- One line of the fallback's mean output:
`f"Mean of {col}: {df[col].mean():.2f}"`. -/
def meanLine (df : DataFrame) (c : String) : String :=
  "Mean of " ++ c ++ ": " ++ fmtPV ((seriesMean (colSeries df c)).getD .nan)

/-- One line of the fallback's sum output:
`f"Sum of {col}: {df[col].sum():.2f}"`. -/
def sumLine (df : DataFrame) (c : String) : String :=
  "Sum of " ++ c ++ ": " ++ fmtPV ((seriesSum (colSeries df c)).getD .nan)

/-- The numeric columns the mean branch reports on: those whose
lower-cased name occurs in the lower-cased query, or every numeric
column when there is exactly one (`agent.py` line 585). -/
def meanSelected (df : DataFrame) (ql : String) : List String :=
  let nc := numericCols df
  nc.filter fun c => pyIn (pyLower c) ql || nc.length == 1

/-- The numeric columns the sum branch reports on: as for the mean
branch, but ALSO every numeric column whenever the query contains
`sales` or `revenue` (`agent.py` line 595). -/
def sumSelected (df : DataFrame) (ql : String) : List String :=
  let nc := numericCols df
  nc.filter fun c =>
    pyIn (pyLower c) ql || pyIn "sales" ql || pyIn "revenue" ql || nc.length == 1

/-- The generic error reply of the fallback, carrying `str(e)`. -/
def genericErrorReply (errMsg : String) : String :=
  "I encountered an error processing your query: " ++ errMsg
    ++ ". Please try rephrasing your question or check if the data contains the columns you"
    ++ sglQuote ++ "re asking about."

/-- Embedding of the exception fallback of `process_query`
(`agent.py` lines 576–603), given the user query, the dataframe, and
`str(e)` of the exception that triggered the fallback. -/
def fallback_response (df : DataFrame) (query errMsg : String) : String :=
  let ql := pyLower query
  let meanRes :=
    if pyIn "mean" ql || pyIn "average" ql then
      (meanSelected df ql).map (meanLine df)
    else []
  if !meanRes.isEmpty then joinNl meanRes
  else
    let sumRes :=
      if pyIn "sum" ql || pyIn "total" ql then
        (sumSelected df ql).map (sumLine df)
      else []
    if !sumRes.isEmpty then joinNl sumRes
    else if pyIn "columns" ql || pyIn "column" ql then
      "The dataset has " ++ toString df.cols.length ++ " columns: "
        ++ joinComma df.cols
    else genericErrorReply errMsg

/-! ## Database model (`backend/database.py`) and endpoints
(`backend/main.py`)

Sessions and messages are rows of an explicit state record.  Message
ids and timestamps are server-generated and outside the model; the list
order of `messages` is creation order (which is what `order_by
(created_at)` replays).  `ChatSession.messages` carries
`cascade="all, delete-orphan"` (`database.py` line 57), so deleting a
session row deletes its message rows. -/

/-- The stored metadata of an upload (`main.py` lines 105–109). -/
structure Metadata where
  rows : Nat
  columns : List String
  dtypes : List (String × String)
deriving DecidableEq

/-- A `chat_sessions` row. -/
structure SessionRow where
  id : String
  user_id : String
  filename : String
  csv_data : List Nat
  csv_metadata : Metadata
deriving DecidableEq

/-- A `chat_messages` row (id and timestamp omitted: server-generated). -/
structure MessageRow where
  session_id : String
  message_type : String
  content : String
deriving DecidableEq

/-- The relational store: all session rows and all message rows. -/
structure DBState where
  sessions : List SessionRow
  messages : List MessageRow
deriving DecidableEq

/-- Model of `db.query(ChatSession).filter(ChatSession.id == sid).first()`. -/
def findSession (db : DBState) (sid : String) : Option SessionRow :=
  db.sessions.find? fun s => s.id == sid

/-- An HTTP response: a JSON body of string fields, or an
`HTTPException` with status code and detail. -/
inductive HttpResponse where
  | ok (fields : List (String × String))
  | error (status : Nat) (detail : String)
deriving DecidableEq

/-- Response of `GET /session/{id}/messages`. -/
inductive MessagesResponse where
  | ok (session_id : String) (msgs : List MessageRow)
  | error (status : Nat) (detail : String)
deriving DecidableEq

/-- Embedding of the `/query` endpoint (`main.py` lines 150–201).

The model call itself is external: `modelReply` is the reply
`process_query` produced (the endpoint's behaviour from the moment the
model call succeeded is what claim C2 is about; the committed user
message is kept).  `assistantCommitOk` is the outcome of the
`db.commit()` persisting the assistant message, and `dbErrMsg` is
`str(e)` of the database failure when that commit raises: the inner
`except` then rolls back and raises `HTTPException(500)`. -/
def query_data (db : DBState) (session_id query : String)
    (modelReply : String) (assistantCommitOk : Bool) (dbErrMsg : String) :
    HttpResponse × DBState :=
  match findSession db session_id with
  | none =>
    (.error 404 "No data found for this session. Please upload a CSV file first.", db)
  | some s =>
    match deserialize_dataframe s.csv_data with
    | none => (.error 500 "Error: invalid pickle data", db)
    | some _ =>
      let db1 : DBState :=
        { db with messages := db.messages ++ [⟨session_id, "user", query⟩] }
      if assistantCommitOk then
        (.ok [("session_id", session_id), ("query", query),
          ("response", modelReply), ("storage", "PostgreSQL")],
         { db1 with messages := db1.messages ++ [⟨session_id, "assistant", modelReply⟩] })
      else
        (.error 500 ("Error processing query: " ++ dbErrMsg), db1)

/-- Embedding of `DELETE /session/{id}` (`main.py` lines 249–263):
404 when the session is absent; otherwise `db.delete(session)` removes
the session row and, through the declared cascade, every message row
owned by it. -/
def delete_session (db : DBState) (sid : String) : HttpResponse × DBState :=
  match findSession db sid with
  | none => (.error 404 "Session not found", db)
  | some _ =>
    (.ok [("message", "Session deleted successfully")],
     ⟨db.sessions.filter (fun s => !(s.id == sid)),
      db.messages.filter (fun m => !(m.session_id == sid))⟩)

/-- Embedding of `GET /session/{id}/messages` (`main.py` lines 225–238). -/
def get_chat_messages (db : DBState) (sid : String) : MessagesResponse :=
  match findSession db sid with
  | none => .error 404 "Session not found"
  | some _ => .ok sid (db.messages.filter fun m => m.session_id == sid)

/-- The metadata `/upload` stores (`main.py` lines 105–109). -/
def upload_metadata (df : DataFrame) : Metadata :=
  ⟨df.rows.length, df.cols, df.cols.zip df.dtypes⟩

/-- Update the first session row with the given id in place
(model of mutating the row returned by `.first()`). -/
def updateFirst (sid : String) (f : SessionRow → SessionRow) :
    List SessionRow → List SessionRow
  | [] => []
  | r :: rest =>
    if r.id == sid then f r :: rest else r :: updateFirst sid f rest

/-- Embedding of `POST /upload` (`main.py` lines 73–148) from the point
where the file content has been read and parsed: `df` is the dataframe
`pd.read_csv` produced and `filename` the upload's name (the byte-level
read and CSV parse of lines 90–99 are upstream of the claims).
`freshId` models `str(uuid.uuid4())` when no truthy session id is
supplied.  An existing session is updated in place (csv_data,
csv_metadata, filename); otherwise a new row is inserted. -/
def upload_file (db : DBState) (session_id : Option String) (freshId : String)
    (filename : String) (df : DataFrame) : HttpResponse × DBState :=
  let sid := if pyTruthy session_id then session_id.getD "" else freshId
  if filename.isEmpty then (.error 400 "No file provided", db)
  else if !(endsWithStr filename ".csv") then (.error 400 "File must be a CSV", db)
  else if df.rows.isEmpty then (.error 400 "CSV file contains no data", db)
  else
    let blob := serialize_dataframe df
    let meta := upload_metadata df
    match findSession db sid with
    | some _ =>
      let upd : SessionRow → SessionRow := fun r =>
        { r with csv_data := blob, csv_metadata := meta, filename := filename }
      (.ok [("session_id", sid), ("message", "File uploaded successfully")],
       { db with sessions := updateFirst sid upd db.sessions })
    | none =>
      (.ok [("session_id", sid), ("message", "File uploaded successfully")],
       { db with sessions :=
          db.sessions ++ [⟨sid, "default_user", filename, blob, meta⟩] })

/-! ## Concrete example data

The five-row sales dataset of the spec's testable properties (§8), and
small frames and database states used to instantiate the theorems. -/

/-- The spec's example dataset: `sales` holds 100, 200, 150, 250, 180
and `name` equals "Product A" exactly on the rows with sales 100, 150
and 180. -/
def exampleDf : DataFrame :=
  ⟨["name", "sales"], ["object", "int64"],
   [[.str "Product A", .num (iF 100)], [.str "Product B", .num (iF 200)],
    [.str "Product A", .num (iF 150)], [.str "Product B", .num (iF 250)],
    [.str "Product A", .num (iF 180)]]⟩

/-- A frame with two numeric columns whose names are unrelated to the
query words used against it. -/
def twoColDf : DataFrame :=
  ⟨["qty", "amt"], ["int64", "int64"],
   [[.num (iF 10), .num (iF 30)], [.num (iF 20), .num (iF 40)]]⟩

/-- A one-column frame, for missing-column errors. -/
def salesOnlyDf : DataFrame := ⟨["sales"], ["int64"], [[.num (iF 100)]]⟩

/-- A frame whose aggregate column holds an infinity. -/
def infDf : DataFrame :=
  ⟨["g", "x"], ["object", "float64"], [[.str "a", PValue.inf]]⟩

/-- A database holding one session whose blob is the serialized example
frame. -/
def exampleDb : DBState :=
  ⟨[⟨"s1", "default_user", "data.csv", serialize_dataframe exampleDf,
     upload_metadata exampleDf⟩], []⟩

/-- A database with one session that already has chat messages. -/
def exampleDb2 : DBState :=
  ⟨[⟨"s1", "default_user", "data.csv", serialize_dataframe exampleDf,
     upload_metadata exampleDf⟩],
   [⟨"s1", "user", "hi"⟩, ⟨"s1", "assistant", "hello"⟩]⟩

/-! ### Round-trip lemmas for the codecs -/

lemma map_ofNat_toNat (l : List Char) :
    l.map (fun c => Char.ofNat (Char.toNat c)) = l := by
  induction l with
  | nil => rfl
  | cons c cs ih => simp [Char.ofNat_toNat, ih]

lemma decStr_encStr (s : String) (t : List Nat) :
    decStr (encStr s ++ t) = some (s, t) := by
  simp only [encStr, List.cons_append, decStr]
  rw [if_pos]
  · have htake : ((s.data.map Char.toNat) ++ t).take s.data.length
        = s.data.map Char.toNat := by
      conv in s.data.length => rw [← List.length_map s.data Char.toNat]
      exact List.take_left _ _
    have hdrop : ((s.data.map Char.toNat) ++ t).drop s.data.length = t := by
      conv in s.data.length => rw [← List.length_map s.data Char.toNat]
      exact List.drop_left _ _
    rw [htake, hdrop, List.map_map]
    simp only [Function.comp_def, map_ofNat_toNat]
  · simp only [List.length_append, List.length_map]
    omega

lemma decInt_encInt (i : Int) (t : List Nat) :
    decInt (encInt i ++ t) = some (i, t) := by
  simp only [encInt]
  by_cases h : 0 ≤ i
  · rw [if_pos h]
    simp only [List.cons_append, List.nil_append, decInt]
    rw [if_pos (by omega)]
    have hv : ((2 * i.toNat / 2 : Nat) : Int) = i := by omega
    rw [hv]
  · rw [if_neg h]
    simp only [List.cons_append, List.nil_append, decInt]
    rw [if_neg (by omega)]
    have hv : -(((2 * (-i).toNat - 1 + 1) / 2 : Nat) : Int) = i := by omega
    rw [hv]

lemma decFrac_encFrac (q : Frac) (t : List Nat) :
    decFrac (encFrac q ++ t) = some (q, t) := by
  simp only [encFrac, List.append_assoc, List.cons_append, List.nil_append, decFrac]
  rw [decInt_encInt q.num (q.den :: t)]

lemma decPValue_encPValue (v : PValue) (t : List Nat) :
    decPValue (encPValue v ++ t) = some (v, t) := by
  cases v with
  | str s =>
    simp only [encPValue, List.cons_append, decPValue]
    rw [decStr_encStr]
    rfl
  | num q =>
    simp only [encPValue, List.cons_append, decPValue]
    rw [decFrac_encFrac]
    rfl
  | inf => rfl
  | ninf => rfl
  | nan => rfl

lemma decListWN_encBody {α : Type} (dec : List Nat → Option (α × List Nat))
    (enc : α → List Nat) (h : ∀ x t, dec (enc x ++ t) = some (x, t)) :
    ∀ (xs : List α) (t : List Nat),
      decListWN dec xs.length (encBody enc xs ++ t) = some (xs, t) := by
  intro xs
  induction xs with
  | nil => intro t; rfl
  | cons x xs ih =>
    intro t
    simp only [List.length_cons, encBody, List.append_assoc, decListWN,
      h x (encBody enc xs ++ t), ih t, Option.some_bind]

lemma decListW_encListW {α : Type} (dec : List Nat → Option (α × List Nat))
    (enc : α → List Nat) (h : ∀ x t, dec (enc x ++ t) = some (x, t))
    (xs : List α) (t : List Nat) :
    decListW dec (encListW enc xs ++ t) = some (xs, t) := by
  simp only [encListW, List.cons_append, decListW]
  exact decListWN_encBody dec enc h xs t

lemma pickleLoads_pickleDumps (df : DataFrame) :
    pickleLoads (pickleDumps df) = some df := by
  have hstr := decListW_encListW decStr encStr decStr_encStr
  have hpv := decListW_encListW decPValue encPValue decPValue_encPValue
  have hrow := decListW_encListW (decListW decPValue) (encListW encPValue) hpv
  have h3 := hrow df.rows []
  rw [List.append_nil] at h3
  simp only [pickleDumps, pickleLoads, List.append_assoc, hstr, h3,
    Option.some_bind]
  rfl

lemma deserialize_serialize (df : DataFrame) :
    deserialize_dataframe (serialize_dataframe df) = some df := by
  simp only [serialize_dataframe, deserialize_dataframe, gzipCompress,
    gzipDecompress, if_pos rfl]
  exact pickleLoads_pickleDumps df


/-! ### Substring and join lemmas -/

lemma strData_append (a b : String) : (a ++ b).data = a.data ++ b.data := rfl

lemma charPre_refl (n : List Char) : charPre n n = true := by
  induction n with
  | nil => rfl
  | cons c cs ih => simp [charPre, ih]

lemma charPre_append (n t : List Char) : charPre n (n ++ t) = true := by
  induction n with
  | nil => rfl
  | cons c cs ih => simp [charPre, ih]

lemma charSub_of_pre (h n : List Char) (hp : charPre n h = true) :
    charSub h n = true := by
  cases h with
  | nil =>
    cases n with
    | nil => rfl
    | cons c cs => simp [charPre] at hp
  | cons c cs => simp [charSub, hp]

lemma charSub_append_left (p t n : List Char) (h : charSub t n = true) :
    charSub (p ++ t) n = true := by
  induction p with
  | nil => simpa using h
  | cons c cs ih => simp [charSub, ih]

lemma pyIn_sandwich (p c s : String) : pyIn c (p ++ c ++ s) = true := by
  simp only [pyIn, strData_append, List.append_assoc]
  exact charSub_append_left _ _ _
    (charSub_of_pre _ _ (charPre_append c.data s.data))

lemma pyIn_left_extend (p t c : String) (h : pyIn c t = true) :
    pyIn c (p ++ t) = true := by
  simp only [pyIn, strData_append]
  exact charSub_append_left _ _ _ h

lemma pyIn_refl (c : String) : pyIn c c = true := by
  simp only [pyIn]
  exact charSub_of_pre _ _ (charPre_refl c.data)

lemma pyIn_joinComma (a : String) (l : List String) (h : a ∈ l) :
    pyIn a (joinComma l) = true := by
  induction l with
  | nil => cases h
  | cons x xs ih =>
    by_cases hax : a = x
    · subst hax
      cases xs with
      | nil => exact pyIn_refl a
      | cons y ys =>
        show pyIn a (a ++ ", " ++ joinComma (y :: ys)) = true
        simp only [pyIn, strData_append, List.append_assoc]
        exact charSub_of_pre _ _ (charPre_append _ _)
    · have hxs : a ∈ xs := by
        rcases List.mem_cons.mp h with h' | h'
        · exact absurd h' hax
        · exact h'
      cases xs with
      | nil => cases hxs
      | cons y ys =>
        show pyIn a (x ++ ", " ++ joinComma (y :: ys)) = true
        simp only [pyIn, strData_append, List.append_assoc]
        refine charSub_append_left _ _ _ ?_
        refine charSub_append_left _ _ _ ?_
        simpa [pyIn] using ih hxs

/-! ### Column resolution lemmas -/

lemma resolveColumn_foldl_some (q : String) (cols : List String)
    (acc : Option String) (x : String) (hx : acc = some x) :
    ∃ y, cols.foldl
      (fun acc c => if pyLower c == pyLower q then some c else acc) acc = some y := by
  induction cols generalizing acc x with
  | nil => exact ⟨x, hx⟩
  | cons c cs ih =>
    simp only [List.foldl_cons]
    by_cases h : pyLower c == pyLower q
    · exact ih (if pyLower c == pyLower q then some c else acc) c (by simp [h])
    · exact ih _ x (by simp [h, hx])

lemma resolveColumn_some_of_match (q : String) (cols : List String)
    (hm : ∃ x ∈ cols, pyLower x = pyLower q) :
    ∃ y, resolveColumn q cols = some y := by
  unfold resolveColumn
  induction cols with
  | nil =>
    obtain ⟨x, hx, _⟩ := hm
    cases hx
  | cons c cs ih =>
    simp only [List.foldl_cons]
    by_cases hc : pyLower c == pyLower q
    · exact resolveColumn_foldl_some q cs _ c (by simp [hc])
    · obtain ⟨x, hx, hl⟩ := hm
      rcases List.mem_cons.mp hx with rfl | hx'
      · exact absurd hl (by simpa using hc)
      · simpa [hc] using ih ⟨x, hx', hl⟩

lemma resolveColumn_not_mem (q : String) (cols : List String)
    (h : resolveColumn q cols = none) : q ∉ cols := by
  intro hmem
  obtain ⟨y, hy⟩ := resolveColumn_some_of_match q cols ⟨q, hmem, rfl⟩
  rw [h] at hy
  cases hy

lemma resolveColumn_spec (q : String) (cols : List String) (c : String)
    (h : resolveColumn q cols = some c) :
    c ∈ cols ∧ pyLower c = pyLower q := by
  unfold resolveColumn at h
  suffices haux : ∀ (l : List String) (acc : Option String),
      l.foldl (fun acc c => if pyLower c == pyLower q then some c else acc) acc = some c →
      acc = some c ∨ (c ∈ l ∧ pyLower c = pyLower q) by
    rcases haux cols none h with h' | h'
    · cases h'
    · exact h'
  intro l
  induction l with
  | nil =>
    intro acc hacc
    exact Or.inl hacc
  | cons x xs ih =>
    intro acc hacc
    simp only [List.foldl_cons] at hacc
    rcases ih _ hacc with h' | h'
    · by_cases hx : pyLower x == pyLower q
      · rw [if_pos hx] at h'
        obtain rfl := Option.some.inj h'
        exact Or.inr ⟨List.mem_cons_self x xs, by simpa using hx⟩
      · rw [if_neg hx] at h'
        exact Or.inl h'
    · exact Or.inr ⟨List.mem_cons_of_mem x h'.1, h'.2⟩

lemma idxOfStr_isSome_of_mem (c : String) (cols : List String) (h : c ∈ cols) :
    ∃ i, idxOfStr c cols = some i := by
  induction cols with
  | nil => cases h
  | cons x xs ih =>
    by_cases hx : x == c
    · exact ⟨0, by simp [idxOfStr, hx]⟩
    · have h' : c ∈ xs := by
        rcases List.mem_cons.mp h with h' | h'
        · exact absurd (by simp [h'] : x == c) hx
        · exact h'
      obtain ⟨i, hi⟩ := ih h'
      exact ⟨i + 1, by simp [idxOfStr, hx, hi]⟩

lemma idxOfStr_none_of_not_mem (c : String) (cols : List String) (h : c ∉ cols) :
    idxOfStr c cols = none := by
  induction cols with
  | nil => rfl
  | cons x xs ih =>
    have hx : ¬(x == c) := by
      simp only [beq_iff_eq]
      rintro rfl
      exact h (List.mem_cons_self x xs)
    have hxs : c ∉ xs := fun hm => h (List.mem_cons_of_mem x hm)
    simp [idxOfStr, hx, ih hxs]

lemma getCol_isSome_of_mem (df : DataFrame) (c : String) (h : c ∈ df.cols) :
    ∃ vs, getCol df c = some vs := by
  obtain ⟨i, hi⟩ := idxOfStr_isSome_of_mem c df.cols h
  exact ⟨df.rows.map (fun r => r.getD i PValue.nan), by simp [getCol, hi]⟩

lemma getCol_none_of_not_mem (df : DataFrame) (c : String) (h : c ∉ df.cols) :
    getCol df c = none := by
  simp [getCol, idxOfStr_none_of_not_mem c df.cols h]

/-! ### Aggregation success lemmas -/

lemma aggApply_isSome (agg : String) (vs : List PValue)
    (hagg : validAggs.contains agg = true) (hstr : vs.any isStrB = false) :
    ∃ v, aggApply agg vs = some v := by
  have hmem : agg ∈ validAggs := by
    simpa using hagg
  simp only [validAggs, List.mem_cons, List.mem_singleton] at hmem
  rcases hmem with rfl | rfl | rfl | rfl | rfl | h
  · exact ⟨(vs.filter pNotna).foldl pAdd (.num (iF 0)),
      by simp [aggApply, seriesSum, hstr]⟩
  · by_cases hnn : (vs.filter pNotna).isEmpty
    · exact ⟨.nan, by simp [aggApply, seriesMean, hstr, hnn]⟩
    · exact ⟨pDivNat ((vs.filter pNotna).foldl pAdd (.num (iF 0)))
        (vs.filter pNotna).length, by simp [aggApply, seriesMean, hstr, hnn]⟩
  · exact ⟨.num (iF (vs.filter pNotna).length), by simp [aggApply, seriesCount]⟩
  · cases hnn : vs.filter pNotna with
    | nil => exact ⟨.nan, by simp [aggApply, seriesMax, hstr, hnn]⟩
    | cons h t =>
      exact ⟨t.foldl (fun a b => if pvNumLe a b then b else a) h,
        by simp [aggApply, seriesMax, hstr, hnn]⟩
  · cases hnn : vs.filter pNotna with
    | nil => exact ⟨.nan, by simp [aggApply, seriesMin, hstr, hnn]⟩
    | cons h t =>
      exact ⟨t.foldl (fun a b => if pvNumLe a b then a else b) h,
        by simp [aggApply, seriesMin, hstr, hnn]⟩
  · cases h

lemma valsFor_any_false (k : PValue) (gvs avs : List PValue)
    (hstr : avs.any isStrB = false) :
    (valsFor k (gvs.zip avs)).any isStrB = false := by
  rw [List.any_eq_false] at hstr ⊢
  intro v hv
  simp only [valsFor, List.mem_filterMap] at hv
  obtain ⟨p, hp, hif⟩ := hv
  by_cases hk : p.1 == k
  · rw [if_pos hk] at hif
    obtain rfl := Option.some.inj hif
    exact hstr _ (List.of_mem_zip hp).2
  · rw [if_neg hk] at hif
    cases hif

lemma optionMapM_isSome {α β : Type} (f : α → Option β) (l : List α)
    (h : ∀ x ∈ l, ∃ y, f x = some y) : ∃ r, l.mapM f = some r := by
  induction l with
  | nil => exact ⟨[], rfl⟩
  | cons x xs ih =>
    obtain ⟨y, hy⟩ := h x (List.mem_cons_self x xs)
    obtain ⟨r, hr⟩ := ih fun z hz => h z (List.mem_cons_of_mem x hz)
    refine ⟨y :: r, ?_⟩
    rw [List.mapM_cons, hy, hr]
    rfl

lemma aggAll_isSome (agg : String) (gvs avs : List PValue)
    (hagg : validAggs.contains agg = true) (hstr : avs.any isStrB = false) :
    ∃ raw, aggAll agg (gvs.zip avs) = some raw := by
  unfold aggAll
  apply optionMapM_isSome
  intro k _
  obtain ⟨v, hv⟩ := aggApply_isSome agg (valsFor k (gvs.zip avs)) hagg
    (valsFor_any_false k gvs avs hstr)
  exact ⟨(k, v), by simp [hv]⟩

/-! ### Database list lemmas -/

lemma find?_filter_not {α : Type} (p : α → Bool) (l : List α) :
    (l.filter (fun x => !(p x))).find? p = none := by
  induction l with
  | nil => rfl
  | cons a t ih =>
    by_cases h : p a
    · simp [List.filter_cons, h, ih]
    · simp [List.filter_cons, List.find?_cons, h, ih]

lemma updateFirst_map_id (sid : String) (f : SessionRow → SessionRow)
    (hf : ∀ r, (f r).id = r.id) (l : List SessionRow) :
    (updateFirst sid f l).map (fun r => r.id) = l.map (fun r => r.id) := by
  induction l with
  | nil => rfl
  | cons a t ih =>
    by_cases h : a.id == sid
    · simp [updateFirst, h, hf]
    · simp [updateFirst, h, ih]

lemma updateFirst_mem_of_ne (sid : String) (f : SessionRow → SessionRow)
    (l : List SessionRow) (r : SessionRow) (hr : r ∈ l) (hne : r.id ≠ sid) :
    r ∈ updateFirst sid f l := by
  induction l with
  | nil => cases hr
  | cons a t ih =>
    by_cases h : a.id == sid
    · rcases List.mem_cons.mp hr with rfl | hr'
      · exact absurd (by simpa using h) hne
      · rw [updateFirst, if_pos h]
        exact List.mem_cons.mpr (Or.inr hr')
    · rcases List.mem_cons.mp hr with rfl | hr'
      · rw [updateFirst, if_neg h]
        exact List.mem_cons.mpr (Or.inl rfl)
      · rw [updateFirst, if_neg h]
        exact List.mem_cons.mpr (Or.inr (ih hr'))

lemma updateFirst_find_mem (sid : String) (f : SessionRow → SessionRow)
    (l : List SessionRow) (s : SessionRow)
    (h : l.find? (fun x => x.id == sid) = some s) :
    f s ∈ updateFirst sid f l := by
  induction l with
  | nil => cases h
  | cons a t ih =>
    by_cases ha : a.id == sid
    · have has : a = s := by
        rw [List.find?_cons] at h
        simp only [ha] at h
        exact Option.some.inj h
      subst has
      rw [updateFirst, if_pos ha]
      exact List.mem_cons.mpr (Or.inl rfl)
    · have h' : t.find? (fun x => x.id == sid) = some s := by
        rw [List.find?_cons] at h
        simp only [ha] at h
        exact h
      rw [updateFirst, if_neg ha]
      exact List.mem_cons.mpr (Or.inr (ih h'))

lemma pNotna_ne_nan (v : PValue) (h : pNotna v = true) : v ≠ .nan := by
  cases v <;> simp [pNotna] at h ⊢

lemma strAppend_assoc (a b c : String) : a ++ b ++ c = a ++ (b ++ c) := by
  apply congrArg String.mk
  exact List.append_assoc a.data b.data c.data

/-! ## Claim theorems -/

/-- C1: for every in-memory dataframe `df`,
`deserialize_dataframe (serialize_dataframe df)` reproduces `df`
exactly — the same column order, the same cell values, and the same
per-column dtypes (the whole `DataFrame` structure is equal). -/
theorem serialize_roundtrip_exact (df : DataFrame) :
    deserialize_dataframe (serialize_dataframe df) = some df :=
  deserialize_serialize df

/-- C8: on the five-row example dataset where `sales` holds
100, 200, 150, 250, 180 and `name` equals "Product A" exactly on the
rows with sales 100, 150, 180, `filter_and_aggregate("name", "Product
A", "sales", "mean")` succeeds with the mean of only those three rows,
(100 + 150 + 180) / 3, rendered as 143.33 in the message. -/
theorem filter_aggregate_product_a_mean :
    filter_and_aggregate exampleDf "name" "Product A" "sales" "mean"
      = .success (.num (mkFrac (100 + 150 + 180) 3))
        "Mean of sales where name = Product A: 143.33" := by decide

/-- C9: when exactly one of `filter_column` and `filter_value` is truthy
(the other being `None` or empty), `sum_column` silently ignores the
filter: the call behaves exactly like the unfiltered call, so the
result is the sum of the full column. -/
theorem sum_column_partial_filter_ignored (df : DataFrame) (column : String)
    (fc fv : Option String) (h : pyTruthy fc ≠ pyTruthy fv) :
    sum_column df column fc fv = sum_column df column none none := by
  have hcond : (pyTruthy fc && pyTruthy fv) = false := by
    cases hfc : pyTruthy fc <;> cases hfv : pyTruthy fv <;> simp_all
  unfold sum_column
  rw [hcond]
  simp [pyTruthy]

/-- Witness for C9: with only `filter_column` provided the filter is
ignored and the full `sales` column sums to 880. -/
theorem sum_column_partial_filter_ignored_witness :
    sum_column exampleDf "sales" (some "name") none
      = sum_column exampleDf "sales" none none ∧
    sum_column exampleDf "sales" none none
      = .success (.num (iF 880)) "Sum of sales: 880.00" :=
  ⟨sum_column_partial_filter_ignored exampleDf "sales" (some "name") none
    (by decide), by decide⟩

/-- C3 (counterexample): an infinite aggregate is NOT normalized to
zero in `grouped_data`.  Summing the column `x = [inf]` grouped by
`g = ["a"]` yields the entry `("a", inf)`: a non-finite aggregated
value that passes `pd.notna` and is carried through unchanged, so not
every value in `grouped_data` is a finite number. -/
theorem group_by_inf_not_normalized_cex :
    group_by_and_aggregate infDf "g" "x" "sum"
      = .success [(.str "a", .inf)] "Sum of x grouped by g"
        [("a", PValue.inf)] "Found 1 groups"
    ∧ pNotna PValue.inf = true
    ∧ PValue.inf ≠ PValue.num (iF 0) := by decide

/-- C3 (amended): in `grouped_data` only aggregates failing `pd.notna`
(NA/NaN) are replaced by 0, so no entry is `nan`; every entry is either
the raw aggregate of its group (when that aggregate is not NA) or 0.
Infinite aggregates pass through unchanged. -/
theorem group_by_nan_normalized (df : DataFrame) (gq aq agg : String)
    (res : List (PValue × PValue)) (msg summ : String)
    (gd : List (String × PValue))
    (h : group_by_and_aggregate df gq aq agg = .success res msg gd summ) :
    (∀ p ∈ gd, p.2 ≠ PValue.nan) ∧
    (∀ kv ∈ res,
      (pvToStr kv.1, if pNotna kv.2 then kv.2 else PValue.num (iF 0)) ∈ gd) := by
  unfold group_by_and_aggregate at h
  rcases hg : resolveColumn gq df.cols with _ | gcol
  · simp [hg] at h
  rcases ha : resolveColumn aq df.cols with _ | acol
  · simp [hg, ha] at h
  by_cases hv : validAggs.contains agg = true
  · have hv' : agg ∈ validAggs := by simpa using hv
    rcases hgv : getCol df gcol with _ | gvs
    · simp [hg, ha, hv, hv', hgv] at h
    rcases hav : getCol df acol with _ | avs
    · simp [hg, ha, hv, hv', hgv, hav] at h
    rcases haa : aggAll agg (gvs.zip avs) with _ | raw
    · simp [hg, ha, hv, hv', hgv, hav, haa] at h
    simp only [hg, ha, hv, Bool.not_true, Bool.false_eq_true, if_false,
      hgv, hav, haa, GroupResult.success.injEq] at h
    obtain ⟨h1, h2, h3, h4⟩ := h
    subst h1
    constructor
    · intro p hp
      rw [← h3] at hp
      obtain ⟨kv, _, rfl⟩ := List.mem_map.mp hp
      by_cases hn : pNotna kv.2
      · simpa [hn] using pNotna_ne_nan kv.2 hn
      · simp [hn]
    · intro kv hkv
      rw [← h3]
      exact List.mem_map_of_mem _ hkv
  · have hv' : agg ∉ validAggs := by simpa using hv
    simp [hg, ha, hv'] at h

/-- Witness for C3 (amended): instantiated on the infinity dataset. -/
theorem group_by_nan_normalized_witness :
    (∀ p ∈ [("a", PValue.inf)], p.2 ≠ PValue.nan) ∧
    (∀ kv ∈ [(PValue.str "a", PValue.inf)],
      (pvToStr kv.1, if pNotna kv.2 then kv.2 else PValue.num (iF 0))
        ∈ [("a", PValue.inf)]) :=
  group_by_nan_normalized infDf "g" "x" "sum" [(.str "a", .inf)]
    "Sum of x grouped by g" "Found 1 groups" [("a", PValue.inf)] (by decide)

/-- C5 (counterexample): `calculate_mean` on the missing column `foo`
returns an error that names the column (via the propagated `KeyError`
text) but does NOT list the dataset's available columns: the available
column `sales` does not occur in the message. -/
theorem calculate_mean_no_columns_list_cex :
    calculate_mean salesOnlyDf "foo"
      = .error ("Error calculating mean: " ++ keyErrStr "foo")
    ∧ pyIn "sales" ("Error calculating mean: " ++ keyErrStr "foo") = false
    ∧ salesOnlyDf.cols = ["sales"]
    ∧ "foo" ∉ salesOnlyDf.cols := by decide

/-- C5 (amended): for a column name matching no dataset column (even
case-insensitively), `calculate_mean` and `calculate_median` fail with
an error naming the missing column but without the available-columns
list, while `group_by_and_aggregate` fails with an error that names the
missing column AND lists every available column. -/
theorem unknown_column_error_amended (df : DataFrame) (c : String)
    (h : resolveColumn c df.cols = none) :
    calculate_mean df c = .error ("Error calculating mean: " ++ keyErrStr c) ∧
    pyIn c ("Error calculating mean: " ++ keyErrStr c) = true ∧
    calculate_median df c = .error ("Error calculating median: " ++ keyErrStr c) ∧
    (∀ aq agg, group_by_and_aggregate df c aq agg
      = .error (colNotFoundMsg c df.cols)) ∧
    pyIn c (colNotFoundMsg c df.cols) = true ∧
    (∀ a ∈ df.cols, pyIn a (colNotFoundMsg c df.cols) = true) := by
  have hnm : c ∉ df.cols := resolveColumn_not_mem c df.cols h
  have hgc : getCol df c = none := getCol_none_of_not_mem df c hnm
  refine ⟨by simp [calculate_mean, hgc], ?_, by simp [calculate_median, hgc],
    fun aq agg => by simp [group_by_and_aggregate, h], ?_, ?_⟩
  · have heq : "Error calculating mean: " ++ keyErrStr c
        = ("Error calculating mean: " ++ sglQuote) ++ c ++ sglQuote := by
      simp [keyErrStr, strAppend_assoc]
    rw [heq]
    exact pyIn_sandwich _ _ _
  · have heq : colNotFoundMsg c df.cols
        = ("Column " ++ sglQuote) ++ c
          ++ (sglQuote ++ " not found. Available columns: " ++ joinComma df.cols) := by
      simp [colNotFoundMsg, strAppend_assoc]
    rw [heq]
    exact pyIn_sandwich _ _ _
  · intro a ha
    simp only [colNotFoundMsg]
    exact pyIn_left_extend _ _ _ (pyIn_joinComma a _ ha)

/-- Witness for C5 (amended): instantiated on the one-column dataset
and the missing column `foo`. -/
theorem unknown_column_error_amended_witness :
    calculate_mean salesOnlyDf "foo"
      = .error ("Error calculating mean: " ++ keyErrStr "foo") ∧
    pyIn "foo" ("Error calculating mean: " ++ keyErrStr "foo") = true :=
  ⟨(unknown_column_error_amended salesOnlyDf "foo" (by decide)).1,
   (unknown_column_error_amended salesOnlyDf "foo" (by decide)).2.1⟩

/-- C4 (counterexample): with numeric columns `qty` and `amt` (neither
of whose names occurs in the query, and there being two of them, not
one), the fallback for query "total sales" sums BOTH columns because
the query contains the literal keyword `sales` — instead of returning
the generic error message containing the failure detail `boom`, as the
claim's selection rule would require. -/
theorem fallback_sum_keywords_cex :
    fallback_response twoColDf "total sales" "boom"
      = "Sum of qty: 30.00\nSum of amt: 70.00"
    ∧ pyIn "boom" (fallback_response twoColDf "total sales" "boom") = false
    ∧ pyIn (pyLower "qty") (pyLower "total sales") = false
    ∧ pyIn (pyLower "amt") (pyLower "total sales") = false
    ∧ (numericCols twoColDf).length = 2
    ∧ fallback_response twoColDf "total sales" "boom"
        ≠ genericErrorReply "boom" := by decide

/-- C4 (amended): the fallback's mean branch reports exactly the
numeric columns whose lower-cased name occurs in the query (or the
single numeric column); the sum branch does the same EXCEPT that every
numeric column is included whenever the query contains `sales` or
`revenue`; when no branch fires the generic error carrying the failure
detail is returned. -/
theorem fallback_selection_amended (df : DataFrame) (query errMsg : String) :
    (∀ c, c ∈ meanSelected df (pyLower query) ↔
      c ∈ numericCols df ∧ (pyIn (pyLower c) (pyLower query) = true
        ∨ (numericCols df).length = 1)) ∧
    (∀ c, c ∈ sumSelected df (pyLower query) ↔
      c ∈ numericCols df ∧ (pyIn (pyLower c) (pyLower query) = true
        ∨ pyIn "sales" (pyLower query) = true
        ∨ pyIn "revenue" (pyLower query) = true
        ∨ (numericCols df).length = 1)) ∧
    ((pyIn "mean" (pyLower query) || pyIn "average" (pyLower query)) = false →
     (pyIn "sum" (pyLower query) || pyIn "total" (pyLower query)) = false →
     (pyIn "columns" (pyLower query) || pyIn "column" (pyLower query)) = false →
     fallback_response df query errMsg = genericErrorReply errMsg) := by
  refine ⟨?_, ?_, ?_⟩
  · intro c
    simp [meanSelected, List.mem_filter]
  · intro c
    simp [sumSelected, List.mem_filter, or_assoc]
  · intro h1 h2 h3
    simp [fallback_response, h1, h2, h3]

/-- Witness for C4 (amended): a query with no keywords yields the
generic error reply. -/
theorem fallback_selection_amended_witness :
    fallback_response twoColDf "hello" "E" = genericErrorReply "E" :=
  (fallback_selection_amended twoColDf "hello" "E").2.2
    (by decide) (by decide) (by decide)

/-- C6: `group_by_and_aggregate` resolves both requested column names
case-insensitively: when a name has no case-insensitive match the call
fails with exactly the not-found error for that name; when both match,
the resolved columns are actual columns agreeing with the requests up
to case, and (for a valid aggregation over non-string data) the call
proceeds to success; name resolution cannot fail when a
case-insensitive match exists. -/
theorem group_by_resolution_ci (df : DataFrame) (gq aq agg : String) :
    (resolveColumn gq df.cols = none →
      group_by_and_aggregate df gq aq agg = .error (colNotFoundMsg gq df.cols)) ∧
    (∀ g, resolveColumn gq df.cols = some g → resolveColumn aq df.cols = none →
      group_by_and_aggregate df gq aq agg = .error (colNotFoundMsg aq df.cols)) ∧
    (∀ g a, resolveColumn gq df.cols = some g → resolveColumn aq df.cols = some a →
      g ∈ df.cols ∧ pyLower g = pyLower gq ∧ a ∈ df.cols ∧ pyLower a = pyLower aq ∧
      (validAggs.contains agg = true → (colSeries df a).any isStrB = false →
        ∃ res msg gd summ,
          group_by_and_aggregate df gq aq agg = .success res msg gd summ)) ∧
    ((∃ x ∈ df.cols, pyLower x = pyLower gq) → resolveColumn gq df.cols ≠ none) := by
  refine ⟨?_, ?_, ?_, ?_⟩
  · intro h
    simp [group_by_and_aggregate, h]
  · intro g hg ha
    simp [group_by_and_aggregate, hg, ha]
  · intro g a hg ha
    obtain ⟨hgmem, hglow⟩ := resolveColumn_spec gq df.cols g hg
    obtain ⟨hamem, halow⟩ := resolveColumn_spec aq df.cols a ha
    refine ⟨hgmem, hglow, hamem, halow, ?_⟩
    intro hagg hstr
    obtain ⟨gvs, hgvs⟩ := getCol_isSome_of_mem df g hgmem
    obtain ⟨avs, havs⟩ := getCol_isSome_of_mem df a hamem
    have hstr' : avs.any isStrB = false := by
      simpa [colSeries, havs] using hstr
    obtain ⟨raw, hraw⟩ := aggAll_isSome agg gvs avs hagg hstr'
    have hv' : agg ∈ validAggs := by simpa using hagg
    refine ⟨raw, pyCapitalize agg ++ " of " ++ a ++ " grouped by " ++ g,
      raw.map (fun kv => (pvToStr kv.1,
        if pNotna kv.2 then kv.2 else PValue.num (iF 0))),
      "Found " ++ toString raw.length ++ " groups", ?_⟩
    simp [group_by_and_aggregate, hg, ha, hv', hgvs, havs, hraw]
  · intro hm hnone
    obtain ⟨y, hy⟩ := resolveColumn_some_of_match gq df.cols hm
    rw [hnone] at hy
    cases hy

/-- Witness for C6: requesting `G` and `X` (upper case) against the
columns `g`, `x` resolves case-insensitively and the call succeeds. -/
theorem group_by_resolution_ci_witness :
    ∃ res msg gd summ,
      group_by_and_aggregate infDf "G" "X" "sum" = .success res msg gd summ :=
  ((group_by_resolution_ci infDf "G" "X" "sum").2.2.1 "g" "x"
    (by decide) (by decide)).2.2.2.2 (by decide) (by decide)

/-- C2 (counterexample): the /query endpoint does NOT return the model
reply when persisting the assistant message fails after the model call
succeeded: the request ends in `HTTPException(500)` whose detail is the
database error, the reply `THE_REPLY` appears nowhere in the response,
and only the user message remains committed. -/
theorem query_data_drops_reply_cex :
    query_data exampleDb "s1" "average sales" "THE_REPLY" false
        "database write failed"
      = (.error 500 "Error processing query: database write failed",
         ⟨exampleDb.sessions, [⟨"s1", "user", "average sales"⟩]⟩)
    ∧ pyIn "THE_REPLY" "Error processing query: database write failed"
        = false := by decide

/-- C2 (amended): whenever the model call produces a reply, the /query
response contains that reply ONLY when the commit persisting the
assistant message succeeds; when that commit fails the endpoint rolls
back and returns HTTP 500 carrying the database error, dropping the
reply, with only the already-committed user message stored. -/
theorem query_data_reply_amended (db : DBState) (sid q reply dbErr : String)
    (s : SessionRow) (df : DataFrame)
    (hfind : findSession db sid = some s)
    (hde : deserialize_dataframe s.csv_data = some df) :
    query_data db sid q reply true dbErr
      = (.ok [("session_id", sid), ("query", q), ("response", reply),
          ("storage", "PostgreSQL")],
         ⟨db.sessions,
          db.messages ++ [⟨sid, "user", q⟩] ++ [⟨sid, "assistant", reply⟩]⟩) ∧
    query_data db sid q reply false dbErr
      = (.error 500 ("Error processing query: " ++ dbErr),
         ⟨db.sessions, db.messages ++ [⟨sid, "user", q⟩]⟩) := by
  constructor <;> simp [query_data, hfind, hde]

/-- Witness for C2 (amended): on the stored example session, with the
assistant commit succeeding, the response carries the reply. -/
theorem query_data_reply_amended_witness :
    query_data exampleDb "s1" "hi" "R" true "E"
      = (.ok [("session_id", "s1"), ("query", "hi"), ("response", "R"),
          ("storage", "PostgreSQL")],
         ⟨exampleDb.sessions,
          [⟨"s1", "user", "hi"⟩, ⟨"s1", "assistant", "R"⟩]⟩) := by
  have h := (query_data_reply_amended exampleDb "s1" "hi" "R" "E"
    ⟨"s1", "default_user", "data.csv", serialize_dataframe exampleDf,
     upload_metadata exampleDf⟩
    exampleDf (by decide) (deserialize_serialize exampleDf)).1
  simpa [exampleDb] using h

/-- C7: deleting a session removes the session row and, through the
declared cascade, every message row referencing it: afterwards no
message carries that session id, the session cannot be found, and the
message-list endpoint returns 404; deleting an unknown id fails with
404 and leaves the store unchanged. -/
theorem delete_session_cascade (db : DBState) (sid : String) :
    (findSession db sid = none →
      delete_session db sid = (.error 404 "Session not found", db)) ∧
    (findSession db sid ≠ none →
      (∀ m ∈ (delete_session db sid).2.messages, m.session_id ≠ sid) ∧
      findSession (delete_session db sid).2 sid = none ∧
      get_chat_messages (delete_session db sid).2 sid
        = .error 404 "Session not found") := by
  constructor
  · intro h
    simp [delete_session, h]
  · intro h
    rcases hf : findSession db sid with _ | s
    · exact absurd hf h
    have hdel : (delete_session db sid).2
        = ⟨db.sessions.filter (fun s => !(s.id == sid)),
           db.messages.filter (fun m => !(m.session_id == sid))⟩ := by
      simp [delete_session, hf]
    have hnone : (db.sessions.filter (fun s => !(s.id == sid))).find?
        (fun s => s.id == sid) = none :=
      find?_filter_not (fun s => s.id == sid) db.sessions
    refine ⟨?_, ?_, ?_⟩
    · intro m hm
      rw [hdel] at hm
      have hpred := (List.mem_filter.mp hm).2
      simpa using hpred
    · rw [hdel]
      exact hnone
    · rw [hdel]
      simp [get_chat_messages, findSession, hnone]

/-- Witness for C7: deleting the example session removes both of its
stored messages. -/
theorem delete_session_cascade_witness :
    (∀ m ∈ (delete_session exampleDb2 "s1").2.messages, m.session_id ≠ "s1") ∧
    findSession (delete_session exampleDb2 "s1").2 "s1" = none ∧
    get_chat_messages (delete_session exampleDb2 "s1").2 "s1"
      = .error 404 "Session not found" :=
  (delete_session_cascade exampleDb2 "s1").2 (by decide)

/-- C10: re-uploading to an existing session id replaces only that
session's csv_data, csv_metadata and filename: the stored messages are
untouched, the list of session ids is unchanged, every other session
row is unchanged, and the target row keeps its id and user_id while
carrying the new blob, metadata and filename. -/
theorem upload_existing_session_frame (db : DBState)
    (sid freshId filename : String) (df : DataFrame) (s : SessionRow)
    (hfind : findSession db sid = some s)
    (hsid : sid.isEmpty = false)
    (hname : filename.isEmpty = false)
    (hcsv : endsWithStr filename ".csv" = true)
    (hrows : df.rows.isEmpty = false) :
    (upload_file db (some sid) freshId filename df).2.messages = db.messages ∧
    (upload_file db (some sid) freshId filename df).2.sessions.map (fun r => r.id)
      = db.sessions.map (fun r => r.id) ∧
    (∀ r ∈ db.sessions, r.id ≠ sid →
      r ∈ (upload_file db (some sid) freshId filename df).2.sessions) ∧
    { s with
      filename := filename,
      csv_data := serialize_dataframe df,
      csv_metadata := upload_metadata df }
      ∈ (upload_file db (some sid) freshId filename df).2.sessions := by
  have hup : (upload_file db (some sid) freshId filename df).2
      = ⟨updateFirst sid
          (fun r => ⟨r.id, r.user_id, filename, serialize_dataframe df,
            upload_metadata df⟩) db.sessions,
         db.messages⟩ := by
    simp [upload_file, pyTruthy, hsid, hname, hcsv, hrows, hfind]
  refine ⟨by rw [hup], ?_, ?_, ?_⟩
  · rw [hup]
    exact updateFirst_map_id sid
      (fun r => ⟨r.id, r.user_id, filename, serialize_dataframe df,
        upload_metadata df⟩) (fun r => rfl) db.sessions
  · intro r hr hne
    rw [hup]
    exact updateFirst_mem_of_ne sid
      (fun r => ⟨r.id, r.user_id, filename, serialize_dataframe df,
        upload_metadata df⟩) db.sessions r hr hne
  · rw [hup]
    exact updateFirst_find_mem sid
      (fun r => ⟨r.id, r.user_id, filename, serialize_dataframe df,
        upload_metadata df⟩) db.sessions s hfind

/-- Witness for C10: re-uploading a new file to the stored example
session leaves its two chat messages unchanged. -/
theorem upload_existing_session_frame_witness :
    (upload_file exampleDb2 (some "s1") "fresh" "new.csv" twoColDf).2.messages
      = exampleDb2.messages :=
  (upload_existing_session_frame exampleDb2 "s1" "fresh" "new.csv" twoColDf
    ⟨"s1", "default_user", "data.csv", serialize_dataframe exampleDf,
     upload_metadata exampleDf⟩
    (by decide) (by decide) (by decide) (by decide) (by decide)).1
